import Mathlib

/-!
Verification of the statistics aggregation engine of `runEspnStats.py`
(FantasyFootballStatTracker).

The source's numeric values (player points, scores, power rankings) are
modelled as exact rationals; Python's `round(x, 2)` (round half to even)
is modelled by `pythonRound2`.  Fallible operations (`list.index` raising
`ValueError`, list indexing raising `IndexError`, reading a local variable
that was never assigned raising `UnboundLocalError`/`NameError`, division
by a zero length raising `ZeroDivisionError`) are modelled with
`Except String`.  Spreadsheet I/O is modelled by returning the rows of
values that would be staged (`MetricRow`), together with the batch-write
coordinator state (`BatchData`).
-/

/-- Round half to even, Python's `round` tie-breaking rule, on rationals,
written on the numerator and denominator: `f` is the floor of `q`, the
fractional remainder `(q.num % q.den) / q.den` is compared with `1/2` by
comparing `2 * (q.num % q.den)` with `q.den`, and an exact tie goes to the
even neighbour. -/
def roundHalfToEven (q : ℚ) : ℤ :=
  let f : ℤ := q.num / (q.den : ℤ)
  let r2 : ℤ := 2 * (q.num % (q.den : ℤ))
  if r2 < (q.den : ℤ) then f
  else if (q.den : ℤ) < r2 then f + 1
  else if f % 2 = 0 then f else f + 1

/-- Python's `round(q, 2)` modelled on exact rationals. -/
def pythonRound2 (q : ℚ) : ℚ :=
  ((roundHalfToEven (q * 100) : ℤ) : ℚ) / 100

/-- A league team, identified (as Python object equality on the cached
`league.teams` objects behaves) by its name. -/
structure Team where
  team_name : String
deriving DecidableEq, Repr

/-- One player's lineup entry: position, assigned roster slot, and the
per-week stats mapping (`stats[week]` is itself a field-name → value
mapping that may or may not contain `"points"`). -/
structure Player where
  position : String
  slot_position : String
  stats : List (Nat × List (String × ℚ))
deriving DecidableEq, Repr

/-- The value of `player.stats[week]["points"]` when both keys are present. -/
def Player.pointsAt (p : Player) (week : Nat) : Option ℚ :=
  match p.stats.lookup week with
  | some r => r.lookup "points"
  | none => none

/-- Python's `week in player.stats and "points" in player.stats[week]`. -/
def Player.hasPoints (p : Player) (week : Nat) : Bool :=
  (p.pointsAt week).isSome

/-- `TeamData.__init__`: one team's snapshot for one week. -/
structure TeamData where
  team : Team
  lineup : List Player
  index_column : Nat
  projected : ℚ
  score : ℚ
deriving DecidableEq, Repr

/-- A box-score matchup with its two sides (home first, then away, the
order `get_teams_data` iterates them). -/
structure Matchup where
  home_team : Team
  home_lineup : List Player
  home_projected : ℚ
  home_score : ℚ
  away_team : Team
  away_lineup : List Player
  away_projected : ℚ
  away_score : ℚ
deriving DecidableEq, Repr

/-- The league handle: `league.teams` (canonical order), `league.box_scores`,
`league.power_rankings`, and the run's current week. -/
structure FantasyFootballLeague where
  teams : List Team
  box_scores : Nat → List Matchup
  power_rankings : Nat → List (ℚ × Team)
  week : Nat

/-- Python `list.index` as a total lookup: the 0-based index of the first
occurrence, or `none` when absent. -/
def listIndexOf : List Team → Team → Option Nat
  | [], _ => none
  | c :: rest, t => if c = t then some 0 else (listIndexOf rest t).map (· + 1)

/-- `self.league.teams.index(team)`: raises `ValueError` when the team is
not in the canonical list. -/
def teamIndex (canonical : List Team) (t : Team) : Except String Nat :=
  match listIndexOf canonical t with
  | some i => Except.ok i
  | none => Except.error ("ValueError: " ++ t.team_name ++ " is not in list")

/-- `FantasyFootballLeague.get_teams_data`: one `TeamData` per side
(home then away) per matchup, with `index_column = teams.index(team) + 1`. -/
def getTeamsData (canonical : List Team) : List Matchup → Except String (List TeamData)
  | [] => Except.ok []
  | m :: rest =>
      match teamIndex canonical m.home_team with
      | Except.error e => Except.error e
      | Except.ok hIdx =>
        match teamIndex canonical m.away_team with
        | Except.error e => Except.error e
        | Except.ok aIdx =>
          match getTeamsData canonical rest with
          | Except.error e => Except.error e
          | Except.ok tl =>
            Except.ok
              ({ team := m.home_team, lineup := m.home_lineup, index_column := hIdx + 1,
                 projected := m.home_projected, score := m.home_score } ::
               { team := m.away_team, lineup := m.away_lineup, index_column := aIdx + 1,
                 projected := m.away_projected, score := m.away_score } :: tl)

/-- The filter of the inner loop of `average_points_per_player`:
`player.position == position and player.slot_position not in slot_conditions`. -/
def matchesPosition (position : String) (slot_conditions : List String) (player : Player) : Bool :=
  player.position == position && !(slot_conditions.contains player.slot_position)

/-- The inner loop of `average_points_per_player`: accumulate
`(team_player_count, team_player_stats)` over the lineup.  The count is
incremented for every matching entry; the stats only when the entry has
`points` for the week. -/
def playerCountAndStats (lineup : List Player) (position : String)
    (slot_conditions : List String) (week : Nat) : Nat × ℚ :=
  lineup.foldl
    (fun acc player =>
      if matchesPosition position slot_conditions player then
        (acc.1 + 1,
         match player.pointsAt week with
         | some pts => acc.2 + pts
         | none => acc.2)
      else acc)
    (0, 0)

/-- One team's metric table, an ordered sequence of (position, value) pairs. -/
abbrev MetricTable := List (String × ℚ)

/-- The per-team body of `average_points_per_player`: one appended
`(position, round(stats / count, 2))` entry per position with
`team_player_count > 0`, nothing for the others. -/
def averagePointsTableForTeam (team : TeamData) (positions slot_conditions : List String)
    (week : Nat) : MetricTable :=
  positions.filterMap (fun position =>
    let cs := playerCountAndStats team.lineup position slot_conditions week
    if 0 < cs.1 then some (position, pythonRound2 (cs.2 / (cs.1 : ℚ))) else none)

/-- `FantasyFootballLeague.average_points_per_player` for an explicit week:
fresh team snapshots with their average table attached. -/
def averagePointsPerPlayer (fl : FantasyFootballLeague) (positions slot_conditions : List String)
    (week : Nat) : Except String (List (TeamData × MetricTable)) :=
  match getTeamsData fl.teams (fl.box_scores week) with
  | Except.error e => Except.error e
  | Except.ok teams_data =>
      Except.ok (teams_data.map (fun t => (t, averagePointsTableForTeam t positions slot_conditions week)))

/-- `total_points_for_position` in `percentage_of_points_by_position`:
sum of `stats[week]["points"]` over entries that have the week's points,
match the position and whose slot is not excluded. -/
def totalPointsForPosition (lineup : List Player) (position : String)
    (slot_conditions : List String) (week : Nat) : ℚ :=
  ((lineup.filter (fun player =>
      player.hasPoints week && player.position == position
        && !(slot_conditions.contains player.slot_position))).map
    (fun player => (player.pointsAt week).getD 0)).sum

/-- `total_team_points` in `percentage_of_points_by_position`: same sum
without the position condition. -/
def totalTeamPoints (lineup : List Player) (slot_conditions : List String) (week : Nat) : ℚ :=
  ((lineup.filter (fun player =>
      player.hasPoints week && !(slot_conditions.contains player.slot_position))).map
    (fun player => (player.pointsAt week).getD 0)).sum

/-- The per-team body of `percentage_of_points_by_position`: exactly one
appended `(position, rounded percentage)` entry per requested position,
with the percentage defined as 0 when `total_team_points == 0`. -/
def percentageTableForTeam (team : TeamData) (positions slot_conditions : List String)
    (week : Nat) : MetricTable :=
  positions.map (fun position =>
    let total_points_for_position := totalPointsForPosition team.lineup position slot_conditions week
    let total_team_points := totalTeamPoints team.lineup slot_conditions week
    let pct := if total_team_points ≠ 0 then total_points_for_position / total_team_points * 100 else 0
    (position, pythonRound2 pct))

/-- `FantasyFootballLeague.percentage_of_points_by_position` for an explicit
week. -/
def percentageOfPointsByPosition (fl : FantasyFootballLeague)
    (positions slot_conditions : List String) (week : Nat) :
    Except String (List (TeamData × MetricTable)) :=
  match getTeamsData fl.teams (fl.box_scores week) with
  | Except.error e => Except.error e
  | Except.ok teams_data =>
      Except.ok (teams_data.map (fun t => (t, percentageTableForTeam t positions slot_conditions week)))

/-- Spec-worded numerator of the percentage formula: the sum of points of
the team's non-excluded entries of the given position (an entry without
points for the week contributes nothing to a sum of points). -/
def specPositionPoints (lineup : List Player) (position : String)
    (slot_conditions : List String) (week : Nat) : ℚ :=
  ((lineup.filter (fun player =>
      player.position == position && !(slot_conditions.contains player.slot_position))).map
    (fun player => (player.pointsAt week).getD 0)).sum

/-- Spec-worded denominator of the percentage formula: the sum of points of
all the team's non-excluded entries. -/
def specTotalPoints (lineup : List Player) (slot_conditions : List String) (week : Nat) : ℚ :=
  ((lineup.filter (fun player =>
      !(slot_conditions.contains player.slot_position))).map
    (fun player => (player.pointsAt week).getD 0)).sum

/-- A value staged for writing: report labels are strings, metric values
are numbers. -/
inductive CellValue where
  | str : String → CellValue
  | num : ℚ → CellValue
deriving DecidableEq, Repr

/-- One pending write, as stored in `GoogleSheetsManager.batch_data`. -/
structure PendingWrite where
  sheet_name : String
  cell_range : String
  value : CellValue
deriving DecidableEq, Repr

/-- `GoogleSheetsManager.batch_data`: an insertion-ordered mapping from
function name to its list of pending writes. -/
abbrev BatchData := List (String × List PendingWrite)

/-- `GoogleSheetsManager.add_data_to_batch`: append under the function's
key, creating the key on first use. -/
def addDataToBatch (bd : BatchData) (sheet_name cell_range : String) (value : CellValue)
    (function_name : String) : BatchData :=
  if bd.any (fun g => g.1 = function_name) then
    bd.map (fun g =>
      if g.1 = function_name then (g.1, g.2 ++ [⟨sheet_name, cell_range, value⟩]) else g)
  else
    bd ++ [(function_name, [⟨sheet_name, cell_range, value⟩])]

/-- One entry of the bulk `batchUpdate` body built by `write_batch`. -/
structure ValueRange where
  range : String
  values : List (List CellValue)
deriving DecidableEq, Repr

/-- The `range`/`values` entry `write_batch` builds for one pending write. -/
def toValueRange (d : PendingWrite) : ValueRange :=
  { range := d.sheet_name ++ "!" ++ d.cell_range, values := [[d.value]] }

/-- The nested loops of `write_batch` that accumulate `batch_values` over
every function name's pending writes. -/
def writeBatchPayload (bd : BatchData) : List ValueRange :=
  bd.foldl (fun batch_values g =>
    g.2.foldl (fun bv d => bv ++ [toValueRange d]) batch_values) []

/-- The observable outcome of `write_batch`: the single bulk payload sent,
the coordinator state afterwards, and the log line printed. -/
structure WriteBatchResult where
  payload : List ValueRange
  batch_data : BatchData
  log : String
deriving Repr

/-- `GoogleSheetsManager.write_batch`: build the bulk payload, clear
`batch_data` (this happens before the request is attempted), then issue the
one bulk call; an `HttpError` from the sink is caught and only logged. -/
def writeBatch (bd : BatchData) (sinkOk : Bool) : WriteBatchResult :=
  { payload := writeBatchPayload bd,
    batch_data := [],
    log := if sinkOk then "Batch data written successfully."
           else "Error writing batch to spreadsheet: HttpError" }

/-- The column letter of the cell references built throughout the write
functions: `chr(ord('A') + index_column)`. -/
def columnLetter (index_column : Nat) : Char :=
  Char.ofNat ('A'.toNat + index_column)

/-- A cell reference such as `"B1"`: column letter followed by the row. -/
def cellRange (index_column index_row : Nat) : String :=
  (columnLetter index_column).toString ++ toString index_row

/-- One written metric row: its label, the per-team values in the order
they are staged, and the value written to the trailing league-average
column. -/
structure MetricRow where
  label : String
  teamValues : List ℚ
  leagueAverage : ℚ
deriving DecidableEq, Repr

/-- The per-team loop of `get_and_write_average_points_per_player` for one
position row: read `get_average_score_per_player()[position_index][1]` for
each team (an out-of-range index raises). -/
def collectAvgVals : List (TeamData × MetricTable) → Nat → Except String (List ℚ)
  | [], _ => Except.ok []
  | (_, table) :: rest, position_index =>
      match table.get? position_index with
      | some pv =>
          match collectAvgVals rest position_index with
          | Except.error e => Except.error e
          | Except.ok vs => Except.ok (pv.2 :: vs)
      | none => Except.error "IndexError: list index out of range"

/-- The position-row loop of `get_and_write_average_points_per_player`:
per row, stage each team's table value, accumulate them into
`league_average`, and write `round(league_average / len(teams_data), 2)`
to the trailing column. -/
def avgRows (teams_data : List (TeamData × MetricTable)) (started_or_not : String) :
    Nat → List String → Except String (List MetricRow)
  | _, [] => Except.ok []
  | position_index, position :: rest =>
      match collectAvgVals teams_data position_index with
      | Except.error e => Except.error e
      | Except.ok vals =>
          if teams_data.length = 0 then Except.error "ZeroDivisionError: division by zero"
          else
            match avgRows teams_data started_or_not (position_index + 1) rest with
            | Except.error e => Except.error e
            | Except.ok rows =>
                Except.ok
                  ({ label := "Pts/" ++ position ++ " " ++ started_or_not,
                     teamValues := vals,
                     leagueAverage := pythonRound2 (vals.sum / (teams_data.length : ℚ)) } :: rows)

/-- `get_and_write_average_points_per_player`: single-week average rows for
the current week. -/
def getAndWriteAveragePointsPerPlayer (fl : FantasyFootballLeague)
    (positions_to_check positions_to_omit : List String) (started_or_not : String) :
    Except String (List MetricRow) :=
  match averagePointsPerPlayer fl positions_to_check positions_to_omit fl.week with
  | Except.error e => Except.error e
  | Except.ok teams_data => avgRows teams_data started_or_not 0 positions_to_check

/-- The mutable state of `get_and_write_average_points_per_player_all_weeks`
during the week loop: `overall_teams_data`, `average_overall_team_data`
(`none` while the local variable is still unassigned), and the warnings
printed so far. -/
structure AllWeeksAcc where
  overall_teams_data : List MetricTable
  average_overall_team_data : Option (List MetricTable)
  warnings : List String
deriving Repr

/-- The positional element-wise sum
`[(pos, val1 + val2) for (pos, val1), (_, val2) in zip(a, b)]`. -/
def zipSumTables (a b : MetricTable) : MetricTable :=
  List.zipWith (fun x y => (x.1, x.2 + y.2)) a b

/-- The recomputation of `average_overall_team_data`: divide every summed
value by the number of weeks.  (In the source for the averages the
comprehension builds a stray 3-tuple `(position, value / weeks, 2)`; only
components 0 and 1 are ever read, so the stray constant is dropped here.) -/
def divideTables (weeks : Nat) (ts : List MetricTable) : List MetricTable :=
  ts.map (fun sub => sub.map (fun pv => (pv.1, pv.2 / (weeks : ℚ))))

/-- The `for i, team in enumerate(sorted_teams_data)` accumulation loop of
the all-weeks aggregations: on a length mismatch print a warning and
`continue` (skipping both the sum and the recomputation for that team);
otherwise sum positionally and recompute the running per-week average. -/
def innerWeekLoop (weeks : Nat) : AllWeeksAcc → Nat → List (TeamData × MetricTable) →
    Except String AllWeeksAcc
  | acc, _, [] => Except.ok acc
  | acc, i, (team, table) :: rest =>
      match acc.overall_teams_data.get? i with
      | none => Except.error "IndexError: list index out of range"
      | some ov =>
        if ov.length ≠ table.length then
          innerWeekLoop weeks
            { acc with warnings :=
                acc.warnings ++ ["Warning: Varying tuple lengths for team " ++ team.team.team_name] }
            (i + 1) rest
        else
          let overall' := acc.overall_teams_data.set i (zipSumTables ov table)
          innerWeekLoop weeks
            { overall_teams_data := overall',
              average_overall_team_data := some (divideTables weeks overall'),
              warnings := acc.warnings }
            (i + 1) rest

/-- Stable insertion (by `index_column`) for the `sorted(..., key=...)` call. -/
def insertByIndexColumn (x : TeamData × MetricTable) :
    List (TeamData × MetricTable) → List (TeamData × MetricTable)
  | [] => [x]
  | y :: ys =>
      if x.1.index_column < y.1.index_column then x :: y :: ys
      else y :: insertByIndexColumn x ys

/-- `sorted(teams_data, key=lambda team_data: team_data.index_column)`. -/
def sortByIndexColumn : List (TeamData × MetricTable) → List (TeamData × MetricTable)
  | [] => []
  | x :: xs => insertByIndexColumn x (sortByIndexColumn xs)

/-- The `for week in range(1, weeks + 1)` loop of
`get_and_write_average_points_per_player_all_weeks`: the first week with a
non-empty result seeds `overall_teams_data`; later weeks run the
accumulation loop.  Also returns the last week's `teams_data` (as the
Python local escaping the loop), `none` when the loop never ran. -/
def avgAllWeeksGo (fl : FantasyFootballLeague) (positions_to_check positions_to_omit : List String)
    (weeks : Nat) :
    AllWeeksAcc × Option (List (TeamData × MetricTable)) → List Nat →
      Except String (AllWeeksAcc × Option (List (TeamData × MetricTable)))
  | st, [] => Except.ok st
  | st, week :: laterWeeks =>
      match averagePointsPerPlayer fl positions_to_check positions_to_omit week with
      | Except.error e => Except.error e
      | Except.ok teams_data =>
          let sorted_teams_data := sortByIndexColumn teams_data
          if st.1.overall_teams_data.isEmpty then
            avgAllWeeksGo fl positions_to_check positions_to_omit weeks
              ({ st.1 with overall_teams_data := sorted_teams_data.map (fun p => p.2) },
               some teams_data)
              laterWeeks
          else
            match innerWeekLoop weeks st.1 0 sorted_teams_data with
            | Except.error e => Except.error e
            | Except.ok acc' =>
                avgAllWeeksGo fl positions_to_check positions_to_omit weeks
                  (acc', some teams_data) laterWeeks

/-- The `for week in range(1, weeks + 1)` loop, started from the empty
accumulation state. -/
def avgAllWeeksLoop (fl : FantasyFootballLeague) (positions_to_check positions_to_omit : List String)
    (weeks : Nat) : Except String (AllWeeksAcc × Option (List (TeamData × MetricTable))) :=
  avgAllWeeksGo fl positions_to_check positions_to_omit weeks
    ({ overall_teams_data := [], average_overall_team_data := none, warnings := [] }, none)
    (List.range' 1 weeks)

/-- The `for team in range(len(teams_data))` loop of the all-weeks write
phase: reading `average_overall_team_data[team][position_index][1]` raises
`UnboundLocalError` when the variable was never assigned, `IndexError` when
an index is out of range; the staged value is rounded to 2 decimals. -/
def collectAllWeeksVals (average_overall_team_data : Option (List MetricTable))
    (position_index : Nat) : List Nat → Except String (List ℚ)
  | [] => Except.ok []
  | team :: rest =>
      match average_overall_team_data with
      | none =>
          Except.error
            "UnboundLocalError: local variable average_overall_team_data referenced before assignment"
      | some tables =>
        match tables.get? team with
        | none => Except.error "IndexError: list index out of range"
        | some sub =>
          match sub.get? position_index with
          | none => Except.error "IndexError: list index out of range"
          | some pv =>
              match collectAllWeeksVals average_overall_team_data position_index rest with
              | Except.error e => Except.error e
              | Except.ok vs => Except.ok (pythonRound2 pv.2 :: vs)

/-- The position-row loop of the all-weeks write phase: `league_average`
accumulates the already-rounded staged values, and the trailing column gets
`round(league_average / len(teams_data), 2)`. -/
def avgAllWeeksRows (teamsCount : Nat) (average_overall_team_data : Option (List MetricTable))
    (started_or_not : String) : Nat → List String → Except String (List MetricRow)
  | _, [] => Except.ok []
  | position_index, position :: rest =>
      match collectAllWeeksVals average_overall_team_data position_index (List.range teamsCount) with
      | Except.error e => Except.error e
      | Except.ok vals =>
          if teamsCount = 0 then Except.error "ZeroDivisionError: division by zero"
          else
            match avgAllWeeksRows teamsCount average_overall_team_data started_or_not
                (position_index + 1) rest with
            | Except.error e => Except.error e
            | Except.ok rows =>
                Except.ok
                  ({ label := "Pts/" ++ position ++ " " ++ started_or_not,
                     teamValues := vals,
                     leagueAverage := pythonRound2 (vals.sum / (teamsCount : ℚ)) } :: rows)

/-- `get_and_write_average_points_per_player_all_weeks`: the week loop
followed by the write phase; returns the staged rows together with the
warnings printed by the accumulation loop. -/
def getAndWriteAveragePointsPerPlayerAllWeeks (fl : FantasyFootballLeague) (weeks : Nat)
    (positions_to_check positions_to_omit : List String) (started_or_not : String) :
    Except String (List MetricRow × List String) :=
  match avgAllWeeksLoop fl positions_to_check positions_to_omit weeks with
  | Except.error e => Except.error e
  | Except.ok st =>
      match positions_to_check with
      | [] => Except.ok ([], st.1.warnings)
      | _ =>
        match st.2 with
        | none => Except.error "NameError: name teams_data is not defined"
        | some teams_data =>
            match avgAllWeeksRows teams_data.length st.1.average_overall_team_data
                started_or_not 0 positions_to_check with
            | Except.error e => Except.error e
            | Except.ok rows => Except.ok (rows, st.1.warnings)

/-- The `for ranking in power_rankings: for team in teams_data:` joining
loop: the last ranking tuple whose team matches wins; a team never matched
keeps `power_ranking` unset (`None`). -/
def findPowerRanking (rankings : List (ℚ × Team)) (t : Team) : Option ℚ :=
  rankings.foldl (fun acc r => if r.2 = t then some r.1 else acc) none

/-- `FantasyFootballLeague.power_ranking_per_player` for the current week. -/
def powerRankingPerPlayer (fl : FantasyFootballLeague) (week : Nat) :
    Except String (List (TeamData × Option ℚ)) :=
  match getTeamsData fl.teams (fl.box_scores week) with
  | Except.error e => Except.error e
  | Except.ok teams_data =>
      Except.ok (teams_data.map (fun t => (t, findPowerRanking (fl.power_rankings week) t.team)))

/-- The per-team loop of `get_and_write_power_ranking`:
`float(team.get_power_ranking())` raises when the ranking is `None`. -/
def collectPowerVals : List (TeamData × Option ℚ) → Except String (List ℚ)
  | [] => Except.ok []
  | (_, r) :: rest =>
      match r with
      | none => Except.error "TypeError: float() argument must not be None"
      | some v =>
          match collectPowerVals rest with
          | Except.error e => Except.error e
          | Except.ok vs => Except.ok (v :: vs)

/-- `get_and_write_power_ranking`: stage each team's ranking and write
`league_average / len(teams_data)` — with no rounding — to the trailing
column. -/
def getAndWritePowerRanking (fl : FantasyFootballLeague) : Except String MetricRow :=
  match powerRankingPerPlayer fl fl.week with
  | Except.error e => Except.error e
  | Except.ok teams_data =>
      match collectPowerVals teams_data with
      | Except.error e => Except.error e
      | Except.ok vals =>
          if teams_data.length = 0 then Except.error "ZeroDivisionError: division by zero"
          else
            Except.ok
              { label := "Power Ranking",
                teamValues := vals,
                leagueAverage := vals.sum / (teams_data.length : ℚ) }

/-- A two-team league used to evaluate the functions on concrete data. -/
def teamA : Team := { team_name := "A" }

/-- Second team of the concrete league. -/
def teamB : Team := { team_name := "B" }

/-- A quarterback lineup entry scoring `pts` points in the given week. -/
def qbPlayer (week : Nat) (pts : ℚ) : Player :=
  { position := "QB", slot_position := "QB", stats := [(week, [("points", pts)])] }

/-- A kicker lineup entry scoring `pts` points in the given week. -/
def kPlayer (week : Nat) (pts : ℚ) : Player :=
  { position := "K", slot_position := "K", stats := [(week, [("points", pts)])] }

/-- A matchup of `teamA` (home) against `teamB` (away) with the given lineups. -/
def mkMatchup (la lb : List Player) : Matchup :=
  { home_team := teamA, home_lineup := la, home_projected := 0, home_score := 0,
    away_team := teamB, away_lineup := lb, away_projected := 0, away_score := 0 }

/-- Two weeks of box scores in which team B fields a kicker in week 1 but
not in week 2, so B's average table has 2 entries in week 1 and 1 in
week 2. -/
def flC1 : FantasyFootballLeague :=
  { teams := [teamA, teamB],
    box_scores := fun w =>
      if w = 1 then [mkMatchup [qbPlayer 1 10, kPlayer 1 4] [qbPlayer 1 20, kPlayer 1 6]]
      else if w = 2 then [mkMatchup [qbPlayer 2 30, kPlayer 2 8] [qbPlayer 2 40]]
      else [],
    power_rankings := fun _ => [],
    week := 2 }

/-- A one-week league: team A's quarterback scores 10, team B's scores 20. -/
def flC2 : FantasyFootballLeague :=
  { teams := [teamA, teamB],
    box_scores := fun w =>
      if w = 1 then [mkMatchup [qbPlayer 1 10] [qbPlayer 1 20]] else [],
    power_rankings := fun _ => [],
    week := 1 }

/-- The one-week league with power rankings 1/200 and 0, whose mean 1/400
has four decimal places. -/
def flC4 : FantasyFootballLeague :=
  { teams := [teamA, teamB],
    box_scores := fun w =>
      if w = 1 then [mkMatchup [qbPlayer 1 10] [qbPlayer 1 20]] else [],
    power_rankings := fun _ => [(1/200, teamA), (0, teamB)],
    week := 1 }

/-- A snapshot whose lineup has one quarterback and no kicker. -/
def tdW : TeamData :=
  { team := teamA, lineup := [qbPlayer 1 10], index_column := 1, projected := 0, score := 0 }

/-- A snapshot with an empty lineup, hence zero total points. -/
def tdZero : TeamData :=
  { team := teamB, lineup := [], index_column := 2, projected := 0, score := 0 }

/-- The power-ranking row written for `flC4`. -/
def c4Row : MetricRow :=
  { label := "Power Ranking", teamValues := [1/200, 0], leagueAverage := 1/400 }

theorem foldl_append_toValueRange (l : List PendingWrite) (acc : List ValueRange) :
    l.foldl (fun bv d => bv ++ [toValueRange d]) acc = acc ++ l.map toValueRange := by
  induction l generalizing acc with
  | nil => simp
  | cons d rest ih => simp [List.foldl_cons, ih]

theorem writeBatchPayload_join (bd : BatchData) :
    writeBatchPayload bd = (bd.map (fun g => g.2.map toValueRange)).flatten := by
  suffices h : ∀ acc : List ValueRange,
      bd.foldl (fun batch_values g =>
        g.2.foldl (fun bv d => bv ++ [toValueRange d]) batch_values) acc
        = acc ++ (bd.map (fun g => g.2.map toValueRange)).flatten by
    simpa [writeBatchPayload] using h []
  induction bd with
  | nil => simp
  | cons g rest ih =>
      intro acc
      rw [List.foldl_cons, foldl_append_toValueRange, ih]
      simp

/-- C5: `write_batch` drains every pending write of every operation name
into the one bulk payload, and the pending map is empty afterwards whether
or not the sink call succeeds, so a subsequent flush sends nothing. -/
theorem write_batch_flushes_and_clears (bd : BatchData) (sinkOk sinkOk' : Bool) :
    (writeBatch bd sinkOk).batch_data = []
    ∧ (writeBatch bd sinkOk).payload = (bd.map (fun g => g.2.map toValueRange)).flatten
    ∧ (writeBatch (writeBatch bd sinkOk).batch_data sinkOk').payload = [] := by
  refine ⟨rfl, writeBatchPayload_join bd, rfl⟩

/-- C7: the per-team column letter is `chr(ord('A') + column_index)`:
index 1 is column "B", index 25 is column "Z", and index 26 falls outside
the letters A..Z (it is not wrapped into any valid single letter). -/
theorem column_letter_boundaries :
    columnLetter 1 = 'B' ∧ columnLetter 25 = 'Z'
    ∧ cellRange 1 1 = "B1"
    ∧ ¬ ('A' ≤ columnLetter 26 ∧ columnLetter 26 ≤ 'Z') := by
  decide

/-- C9: the single-week percentage transform appends exactly one entry per
requested position, in request order, so every team's percentage table has
length `positions.length` regardless of the lineup. -/
theorem percentage_table_shape (team : TeamData) (positions slot_conditions : List String)
    (week : Nat) :
    (percentageTableForTeam team positions slot_conditions week).map Prod.fst = positions
    ∧ (percentageTableForTeam team positions slot_conditions week).length = positions.length := by
  constructor
  · simp [percentageTableForTeam, List.map_map, Function.comp_def]
  · simp [percentageTableForTeam]

theorem playerCountAndStats_foldl (position : String) (slot_conditions : List String)
    (week : Nat) :
    ∀ (lineup : List Player) (a : Nat) (b : ℚ),
      lineup.foldl
        (fun acc player =>
          if matchesPosition position slot_conditions player then
            (acc.1 + 1,
             match player.pointsAt week with
             | some pts => acc.2 + pts
             | none => acc.2)
          else acc)
        (a, b)
        = (a + (lineup.filter (matchesPosition position slot_conditions)).length,
           b + ((lineup.filter (fun pl =>
                  matchesPosition position slot_conditions pl && pl.hasPoints week)).map
                (fun pl => (pl.pointsAt week).getD 0)).sum)
  | [], a, b => by simp
  | pl :: rest, a, b => by
      by_cases h : matchesPosition position slot_conditions pl
      · cases hp : pl.pointsAt week with
        | some pts =>
            have hh : pl.hasPoints week = true := by simp [Player.hasPoints, hp]
            simp only [List.foldl_cons, h, if_true, hp,
              playerCountAndStats_foldl position slot_conditions week rest]
            simp [List.filter_cons, h, hh, hp, Prod.ext_iff]
            constructor <;> ring
        | none =>
            have hh : pl.hasPoints week = false := by simp [Player.hasPoints, hp]
            simp only [List.foldl_cons, h, if_true, hp,
              playerCountAndStats_foldl position slot_conditions week rest]
            simp [List.filter_cons, h, hh, Prod.ext_iff]
            omega
      · simp only [List.foldl_cons, h, if_false,
          playerCountAndStats_foldl position slot_conditions week rest]
        simp [List.filter_cons, h]

/-- C10: in the single-week average transform, the divisor counts every
lineup entry matching the position with a non-excluded slot — also those
whose stats lack the week or its `points` field — while the numerator sums
only the points that are actually present, so the average is the available
total divided by the count of all matching entries. -/
theorem average_divisor_counts_all_matching (lineup : List Player) (position : String)
    (slot_conditions : List String) (week : Nat) :
    (playerCountAndStats lineup position slot_conditions week).1
        = (lineup.filter (matchesPosition position slot_conditions)).length
    ∧ (playerCountAndStats lineup position slot_conditions week).2
        = ((lineup.filter (fun pl =>
              matchesPosition position slot_conditions pl && pl.hasPoints week)).map
            (fun pl => (pl.pointsAt week).getD 0)).sum := by
  have h := playerCountAndStats_foldl position slot_conditions week lineup 0 0
  unfold playerCountAndStats
  rw [h]
  constructor <;> simp

theorem sum_filter_hasPoints (week : Nat) (A : Player → Bool) :
    ∀ lineup : List Player,
      ((lineup.filter (fun pl => pl.hasPoints week && A pl)).map
          (fun pl => (pl.pointsAt week).getD 0)).sum
        = ((lineup.filter A).map (fun pl => (pl.pointsAt week).getD 0)).sum
  | [] => by simp
  | pl :: rest => by
      by_cases hA : A pl
      · cases hh : pl.hasPoints week
        · have hp : pl.pointsAt week = none := by
            cases hpp : pl.pointsAt week
            · rfl
            · simp [Player.hasPoints, hpp] at hh
          simp [List.filter_cons, hA, hh, hp, sum_filter_hasPoints week A rest]
        · simp [List.filter_cons, hA, hh, sum_filter_hasPoints week A rest]
      · simp [List.filter_cons, hA, sum_filter_hasPoints week A rest]

theorem totalPointsForPosition_eq_spec (lineup : List Player) (position : String)
    (slot_conditions : List String) (week : Nat) :
    totalPointsForPosition lineup position slot_conditions week
      = specPositionPoints lineup position slot_conditions week := by
  have h := sum_filter_hasPoints week
    (fun pl => pl.position == position && !(slot_conditions.contains pl.slot_position)) lineup
  simpa [totalPointsForPosition, specPositionPoints, Bool.and_assoc] using h

theorem totalTeamPoints_eq_spec (lineup : List Player) (slot_conditions : List String)
    (week : Nat) :
    totalTeamPoints lineup slot_conditions week = specTotalPoints lineup slot_conditions week := by
  have h := sum_filter_hasPoints week
    (fun pl => !(slot_conditions.contains pl.slot_position)) lineup
  simpa [totalTeamPoints, specTotalPoints] using h

theorem lookup_map_pair (f : String → ℚ) :
    ∀ (positions : List String) (position : String), position ∈ positions →
      (positions.map (fun p => (p, f p))).lookup position = some (f position)
  | [], _, h => by cases h
  | q :: rest, position, h => by
      by_cases hq : position = q
      · subst hq
        simp [List.lookup]
      · have hr : position ∈ rest := by
          cases h with
          | head => exact absurd rfl hq
          | tail _ h' => exact h'
        have : (position == q) = false := beq_eq_false_iff_ne.mpr hq
        simp [List.lookup, this, lookup_map_pair f rest position hr]

theorem pythonRound2_zero : pythonRound2 0 = 0 := by
  norm_num [pythonRound2, roundHalfToEven]

/-- C3: for every requested position, the recorded percentage equals the
spec formula — points of that position over all points, both over
non-excluded entries, times 100, rounded to 2 decimals — and a zero total
yields exactly 0 rather than an error or an undefined value. -/
theorem percentage_by_position_formula (team : TeamData) (positions slot_conditions : List String)
    (week : Nat) (position : String) (hmem : position ∈ positions) :
    (percentageTableForTeam team positions slot_conditions week).lookup position
      = some (pythonRound2
          (specPositionPoints team.lineup position slot_conditions week /
             specTotalPoints team.lineup slot_conditions week * 100))
    ∧ (specTotalPoints team.lineup slot_conditions week = 0 →
       (percentageTableForTeam team positions slot_conditions week).lookup position = some 0) := by
  have hlookup := lookup_map_pair
    (fun position =>
      pythonRound2
        (if totalTeamPoints team.lineup slot_conditions week ≠ 0 then
           totalPointsForPosition team.lineup position slot_conditions week /
             totalTeamPoints team.lineup slot_conditions week * 100
         else 0))
    positions position hmem
  have htable :
      (percentageTableForTeam team positions slot_conditions week).lookup position
        = some (pythonRound2
            (if totalTeamPoints team.lineup slot_conditions week ≠ 0 then
               totalPointsForPosition team.lineup position slot_conditions week /
                 totalTeamPoints team.lineup slot_conditions week * 100
             else 0)) := by
    simpa [percentageTableForTeam] using hlookup
  by_cases hzero : specTotalPoints team.lineup slot_conditions week = 0
  · have htt : totalTeamPoints team.lineup slot_conditions week = 0 := by
      rw [totalTeamPoints_eq_spec]; exact hzero
    constructor
    · rw [htable, htt, hzero]
      simp [pythonRound2_zero]
    · intro _
      rw [htable, htt]
      simp [pythonRound2_zero]
  · have htt : totalTeamPoints team.lineup slot_conditions week ≠ 0 := by
      rw [totalTeamPoints_eq_spec]; exact hzero
    refine ⟨?_, fun h => absurd h hzero⟩
    rw [htable, if_pos htt, totalPointsForPosition_eq_spec, totalTeamPoints_eq_spec]

/-- Witness for C3 at concrete inputs: a lone 10-point quarterback gives
the QB position 100 percent, and an empty lineup (zero total points)
gives 0. -/
theorem percentage_by_position_formula_witness :
    (percentageTableForTeam tdW ["QB", "K"] ["BE"] 1).lookup "QB"
      = some (pythonRound2
          (specPositionPoints tdW.lineup "QB" ["BE"] 1 / specTotalPoints tdW.lineup ["BE"] 1 * 100))
    ∧ (percentageTableForTeam tdZero ["QB"] [] 1).lookup "QB" = some 0 :=
  ⟨(percentage_by_position_formula tdW ["QB", "K"] ["BE"] 1 "QB" (by decide)).1,
   (percentage_by_position_formula tdZero ["QB"] [] 1 "QB" (by decide)).2 (by decide)⟩

/-- C6: (a) a team with at least one matching non-excluded entry for a
position gets exactly the rounded average `round(stats / count, 2)` in its
table (a value with at most 2 decimal places); (b) a team with zero such
entries gets no entry at all for that position — absent, not zero. -/
theorem average_points_presence_and_rounding (team : TeamData)
    (positions slot_conditions : List String) (week : Nat) (position : String)
    (hmem : position ∈ positions) :
    (0 < (playerCountAndStats team.lineup position slot_conditions week).1 →
       ((position,
         pythonRound2
           ((playerCountAndStats team.lineup position slot_conditions week).2 /
             ((playerCountAndStats team.lineup position slot_conditions week).1 : ℚ)))
          ∈ averagePointsTableForTeam team positions slot_conditions week)
       ∧ ∃ n : ℤ,
           pythonRound2
             ((playerCountAndStats team.lineup position slot_conditions week).2 /
               ((playerCountAndStats team.lineup position slot_conditions week).1 : ℚ))
             = (n : ℚ) / 100)
    ∧ ((playerCountAndStats team.lineup position slot_conditions week).1 = 0 →
       ∀ v : ℚ, (position, v) ∉ averagePointsTableForTeam team positions slot_conditions week) := by
  constructor
  · intro hpos
    refine ⟨?_, ⟨roundHalfToEven
      ((playerCountAndStats team.lineup position slot_conditions week).2 /
        ((playerCountAndStats team.lineup position slot_conditions week).1 : ℚ) * 100), rfl⟩⟩
    unfold averagePointsTableForTeam
    exact List.mem_filterMap.mpr ⟨position, hmem, by simp [hpos]⟩
  · intro h0 v hv
    unfold averagePointsTableForTeam at hv
    rcases List.mem_filterMap.mp hv with ⟨q, _, hfq⟩
    by_cases hc : 0 < (playerCountAndStats team.lineup q slot_conditions week).1
    · simp only [hc, if_true] at hfq
      have hq : q = position := by
        have := congrArg (fun o => (Option.map Prod.fst o).getD "") hfq
        simpa using this
      subst hq
      rw [h0] at hc
      exact absurd hc (by simp)
    · simp [hc] at hfq

/-- Witness for C6: in a lineup with one 10-point quarterback and no
kicker, the QB average is present and the K position is absent. -/
theorem average_points_presence_and_rounding_witness :
    (("QB",
      pythonRound2
        ((playerCountAndStats tdW.lineup "QB" ["BE"] 1).2 /
          ((playerCountAndStats tdW.lineup "QB" ["BE"] 1).1 : ℚ)))
       ∈ averagePointsTableForTeam tdW ["QB", "K"] ["BE"] 1)
    ∧ ∀ v : ℚ, ("K", v) ∉ averagePointsTableForTeam tdW ["QB", "K"] ["BE"] 1 :=
  ⟨((average_points_presence_and_rounding tdW ["QB", "K"] ["BE"] 1 "QB" (by decide)).1
      (by decide)).1,
   (average_points_presence_and_rounding tdW ["QB", "K"] ["BE"] 1 "K" (by decide)).2
      (by decide)⟩

theorem teamIndex_ok (canonical : List Team) (t : Team) (i : Nat)
    (h : teamIndex canonical t = Except.ok i) : listIndexOf canonical t = some i := by
  unfold teamIndex at h
  cases hl : listIndexOf canonical t with
  | none => rw [hl] at h; cases h
  | some j => rw [hl] at h; cases h; rfl

theorem listIndexOf_eq_none (t : Team) :
    ∀ canonical : List Team, t ∉ canonical → listIndexOf canonical t = none
  | [], _ => rfl
  | c :: rest, h => by
      have hne : ¬c = t := fun he => h (he ▸ List.mem_cons_self c rest)
      have hrest : t ∉ rest := fun hr => h (List.mem_cons_of_mem c hr)
      simp [listIndexOf, hne, listIndexOf_eq_none t rest hrest]

theorem getTeamsData_ok_mem (canonical : List Team) :
    ∀ (matchups : List Matchup) (l : List TeamData),
      getTeamsData canonical matchups = Except.ok l →
      ∀ td ∈ l, ∃ i, listIndexOf canonical td.team = some i ∧ td.index_column = i + 1
  | [], l, h, td, htd => by
      unfold getTeamsData at h
      cases h
      cases htd
  | m :: rest, l, h, td, htd => by
      unfold getTeamsData at h
      cases hh : teamIndex canonical m.home_team with
      | error e => rw [hh] at h; cases h
      | ok hIdx =>
        rw [hh] at h
        cases ha : teamIndex canonical m.away_team with
        | error e => rw [ha] at h; cases h
        | ok aIdx =>
          rw [ha] at h
          cases hr : getTeamsData canonical rest with
          | error e => rw [hr] at h; cases h
          | ok tl =>
            rw [hr] at h
            cases h
            rcases htd with _ | ⟨_, htd⟩
            · exact ⟨hIdx, teamIndex_ok canonical m.home_team hIdx hh, rfl⟩
            rcases htd with _ | ⟨_, htd⟩
            · exact ⟨aIdx, teamIndex_ok canonical m.away_team aIdx ha, rfl⟩
            · exact getTeamsData_ok_mem canonical rest tl hr td htd

theorem getTeamsData_error_of_missing (canonical : List Team) :
    ∀ (matchups : List Matchup) (m : Matchup), m ∈ matchups →
      (m.home_team ∉ canonical ∨ m.away_team ∉ canonical) →
      ∃ e, getTeamsData canonical matchups = Except.error e
  | m' :: rest, m, hmem, hmiss => by
      unfold getTeamsData
      cases hh : teamIndex canonical m'.home_team with
      | error e => exact ⟨e, rfl⟩
      | ok hIdx =>
        cases ha : teamIndex canonical m'.away_team with
        | error e => exact ⟨e, rfl⟩
        | ok aIdx =>
          have hmrest : m ∈ rest := by
            cases hmem with
            | head =>
                exfalso
                rcases hmiss with hmiss | hmiss
                · have hti := teamIndex_ok canonical _ hIdx hh
                  rw [listIndexOf_eq_none _ canonical hmiss] at hti
                  cases hti
                · have hti := teamIndex_ok canonical _ aIdx ha
                  rw [listIndexOf_eq_none _ canonical hmiss] at hti
                  cases hti
            | tail _ hmem => exact hmem
          rcases getTeamsData_error_of_missing canonical rest m hmrest hmiss with ⟨e, he⟩
          rw [he]
          exact ⟨e, rfl⟩

/-- C8: when extraction succeeds, every snapshot's `column_index` is one
more than the team's 0-based index in the canonical `league.teams` order;
and a matchup side whose team is absent from the canonical order makes the
whole extraction fail with an error. -/
theorem column_index_from_canonical_order (canonical : List Team) (matchups : List Matchup) :
    (∀ l, getTeamsData canonical matchups = Except.ok l →
       ∀ td ∈ l, ∃ i, listIndexOf canonical td.team = some i ∧ td.index_column = i + 1)
    ∧ (∀ m ∈ matchups, (m.home_team ∉ canonical ∨ m.away_team ∉ canonical) →
       ∃ e, getTeamsData canonical matchups = Except.error e) :=
  ⟨fun l h td htd => getTeamsData_ok_mem canonical matchups l h td htd,
   fun m hm hmiss => getTeamsData_error_of_missing canonical matchups m hm hmiss⟩

/-- Witness for C8: in the two-team league, team B's snapshot gets
`column_index = 2` from its canonical index 1; with a canonical order
missing team B, extraction errors. -/
theorem column_index_from_canonical_order_witness :
    (∃ i, listIndexOf [teamA, teamB] teamB = some i
       ∧ ({ team := teamB, lineup := [qbPlayer 1 20], index_column := 2,
            projected := 0, score := 0 } : TeamData).index_column = i + 1)
    ∧ ∃ e, getTeamsData [teamA] [mkMatchup [] []] = Except.error e :=
  ⟨(column_index_from_canonical_order [teamA, teamB] [mkMatchup [qbPlayer 1 10] [qbPlayer 1 20]]).1
      [{ team := teamA, lineup := [qbPlayer 1 10], index_column := 1, projected := 0, score := 0 },
       { team := teamB, lineup := [qbPlayer 1 20], index_column := 2, projected := 0, score := 0 }]
      (by simp [getTeamsData, teamIndex, listIndexOf, mkMatchup, teamA, teamB])
      { team := teamB, lineup := [qbPlayer 1 20], index_column := 2, projected := 0, score := 0 }
      (by simp),
   (column_index_from_canonical_order [teamA] [mkMatchup [] []]).2
      (mkMatchup [] []) (by simp) (Or.inr (by simp [mkMatchup, teamA, teamB])) ⟩

/-- The single-week average row for `flC2`. -/
def c2Row : MetricRow :=
  { label := "Pts/QB started", teamValues := [10, 20], leagueAverage := 15 }

theorem collectAvgVals_ok_length :
    ∀ (teams_data : List (TeamData × MetricTable)) (position_index : Nat) (vals : List ℚ),
      collectAvgVals teams_data position_index = Except.ok vals → vals.length = teams_data.length
  | [], _, vals, h => by
      unfold collectAvgVals at h
      cases h
      rfl
  | (x, table) :: rest, position_index, vals, h => by
      unfold collectAvgVals at h
      cases hg : table.get? position_index with
      | none => rw [hg] at h; cases h
      | some pv =>
          rw [hg] at h
          cases hr : collectAvgVals rest position_index with
          | error e => rw [hr] at h; cases h
          | ok vs =>
              rw [hr] at h
              cases h
              simp [collectAvgVals_ok_length rest position_index vs hr]

theorem avgRows_league_average (teams_data : List (TeamData × MetricTable)) (s : String) :
    ∀ (position_index : Nat) (ps : List String) (rows : List MetricRow),
      avgRows teams_data s position_index ps = Except.ok rows →
      ∀ row ∈ rows,
        row.leagueAverage = pythonRound2 (row.teamValues.sum / (row.teamValues.length : ℚ))
  | _, [], rows, h, row, hrow => by
      unfold avgRows at h
      cases h
      cases hrow
  | position_index, position :: rest, rows, h, row, hrow => by
      unfold avgRows at h
      cases hcv : collectAvgVals teams_data position_index with
      | error e => rw [hcv] at h; cases h
      | ok vals =>
          simp only [hcv] at h
          by_cases hz : teams_data.length = 0
          · rw [if_pos hz] at h; cases h
          · rw [if_neg hz] at h
            cases hrec : avgRows teams_data s (position_index + 1) rest with
            | error e => rw [hrec] at h; cases h
            | ok rows' =>
                rw [hrec] at h
                cases h
                cases hrow with
                | head =>
                    have hl := collectAvgVals_ok_length teams_data position_index vals hcv
                    simp [hl]
                | tail _ htail =>
                    exact avgRows_league_average teams_data s (position_index + 1) rest rows'
                      hrec row htail

theorem collectPowerVals_ok_length :
    ∀ (teams_data : List (TeamData × Option ℚ)) (vals : List ℚ),
      collectPowerVals teams_data = Except.ok vals → vals.length = teams_data.length
  | [], vals, h => by
      unfold collectPowerVals at h
      cases h
      rfl
  | (x, r) :: rest, vals, h => by
      unfold collectPowerVals at h
      cases r with
      | none => cases h
      | some v =>
          cases hr : collectPowerVals rest with
          | error e => rw [hr] at h; cases h
          | ok vs =>
              rw [hr] at h
              cases h
              simp [collectPowerVals_ok_length rest vs hr]

/-- C4 as amended: in the single-week average-points rows the trailing
league-average cell is `round(mean(per-team values written), 2)`, computed
over exactly the written values; the single-week power-ranking row is the
exception — its trailing cell is the mean of the written values with no
rounding applied. -/
theorem league_average_column_rounding :
    (∀ (fl : FantasyFootballLeague) (positions_to_check positions_to_omit : List String)
        (started_or_not : String) (rows : List MetricRow),
        getAndWriteAveragePointsPerPlayer fl positions_to_check positions_to_omit started_or_not
          = Except.ok rows →
        ∀ row ∈ rows,
          row.leagueAverage = pythonRound2 (row.teamValues.sum / (row.teamValues.length : ℚ)))
    ∧ (∀ (fl : FantasyFootballLeague) (row : MetricRow),
        getAndWritePowerRanking fl = Except.ok row →
        row.leagueAverage = row.teamValues.sum / (row.teamValues.length : ℚ)) := by
  constructor
  · intro fl ptc pto s rows h row hrow
    unfold getAndWriteAveragePointsPerPlayer at h
    cases ha : averagePointsPerPlayer fl ptc pto fl.week with
    | error e => rw [ha] at h; cases h
    | ok teams_data =>
        rw [ha] at h
        exact avgRows_league_average teams_data s 0 ptc rows h row hrow
  · intro fl row h
    unfold getAndWritePowerRanking at h
    cases hp : powerRankingPerPlayer fl fl.week with
    | error e => rw [hp] at h; cases h
    | ok teams_data =>
        simp only [hp] at h
        cases hv : collectPowerVals teams_data with
        | error e => rw [hv] at h; cases h
        | ok vals =>
            simp only [hv] at h
            by_cases hz : teams_data.length = 0
            · rw [if_pos hz] at h; cases h
            · rw [if_neg hz] at h
              cases h
              have hl := collectPowerVals_ok_length teams_data vals hv
              simp [hl]

/-- Counterexample to C4 as stated: for `flC4` the power-ranking row's
trailing cell is the unrounded mean 1/400 = 0.0025, which differs from the
2-decimal rounding of the mean of the written per-team values. -/
theorem power_ranking_league_average_unrounded :
    getAndWritePowerRanking flC4 = Except.ok c4Row
    ∧ c4Row.leagueAverage ≠ pythonRound2 (c4Row.teamValues.sum / (c4Row.teamValues.length : ℚ)) := by
  constructor
  · simp [getAndWritePowerRanking, powerRankingPerPlayer, collectPowerVals, findPowerRanking,
      getTeamsData, teamIndex, listIndexOf, flC4, mkMatchup, teamA, teamB, qbPlayer, c4Row]
    norm_num [MetricRow.mk.injEq]
  · norm_num [c4Row, pythonRound2, roundHalfToEven]

/-- Witness for C4 as amended, at the concrete leagues: the average row's
trailing cell is the rounded mean of its written values, and the
power-ranking row's trailing cell is its unrounded mean. -/
theorem league_average_column_rounding_witness :
    c2Row.leagueAverage = pythonRound2 (c2Row.teamValues.sum / (c2Row.teamValues.length : ℚ))
    ∧ c4Row.leagueAverage = c4Row.teamValues.sum / (c4Row.teamValues.length : ℚ) :=
  ⟨league_average_column_rounding.1 flC2 ["QB"] ["BE"] "started" [c2Row]
      (by
        simp [getAndWriteAveragePointsPerPlayer, averagePointsPerPlayer, getTeamsData, teamIndex,
          listIndexOf, flC2, mkMatchup, teamA, teamB, qbPlayer, avgRows, collectAvgVals,
          averagePointsTableForTeam, playerCountAndStats, matchesPosition, Player.pointsAt,
          List.lookup, List.filterMap_cons, c2Row]
        norm_num [pythonRound2, roundHalfToEven, MetricRow.mk.injEq])
      c2Row (by simp),
   league_average_column_rounding.2 flC4 c4Row
      (by
        simp [getAndWritePowerRanking, powerRankingPerPlayer, collectPowerVals, findPowerRanking,
          getTeamsData, teamIndex, listIndexOf, flC4, mkMatchup, teamA, teamB, qbPlayer, c4Row]
        norm_num [MetricRow.mk.injEq])⟩

/-- C1 (evidence of the code defect): over `flC1`'s two weeks, team B's
week-2 table has 1 entry against the 2 accumulated ones, yet the
aggregation completes without any error — it prints one warning line and
drops B's week-2 data, so B's emitted QB value is 10 (week 1's 20 halved)
although B also scored 40 in week 2.  The second conjunct shows the week-2
tables that prove the mismatch and B's dropped 40-point entry. -/
theorem all_weeks_shape_mismatch_silently_skipped :
    getAndWriteAveragePointsPerPlayerAllWeeks flC1 2 ["QB", "K"] ["BE"] "started"
      = Except.ok
          ([{ label := "Pts/QB started", teamValues := [20, 10], leagueAverage := 15 },
            { label := "Pts/K started", teamValues := [6, 3], leagueAverage := 9/2 }],
           ["Warning: Varying tuple lengths for team B"])
    ∧ (averagePointsPerPlayer flC1 ["QB", "K"] ["BE"] 2).map (fun l => l.map Prod.snd)
        = Except.ok [[("QB", 30), ("K", 8)], [("QB", 40)]] := by
  constructor
  · simp [getAndWriteAveragePointsPerPlayerAllWeeks, avgAllWeeksLoop, avgAllWeeksGo,
      avgAllWeeksRows, collectAllWeeksVals, averagePointsPerPlayer, getTeamsData, teamIndex,
      listIndexOf, flC1, mkMatchup, teamA, teamB, qbPlayer, kPlayer, sortByIndexColumn,
      insertByIndexColumn, innerWeekLoop, zipSumTables, divideTables,
      averagePointsTableForTeam, playerCountAndStats, matchesPosition, Player.pointsAt,
      List.lookup, List.filterMap_cons, List.range']
    norm_num [pythonRound2, roundHalfToEven, MetricRow.mk.injEq]
  · simp [averagePointsPerPlayer, getTeamsData, teamIndex, listIndexOf, flC1, mkMatchup,
      teamA, teamB, qbPlayer, kPlayer, averagePointsTableForTeam, playerCountAndStats,
      matchesPosition, Player.pointsAt, List.lookup, List.filterMap_cons, Except.map]
    norm_num [pythonRound2, roundHalfToEven]

/-- C2 (evidence of the code defect): over a range of exactly 1 week the
all-weeks aggregation reads `average_overall_team_data` although the
variable is only assigned in the second-and-later-week branch, so the run
fails with `UnboundLocalError` instead of reproducing the single-week
values, which the single-week function does deliver for the same league. -/
theorem all_weeks_single_week_range_unbound_local :
    getAndWriteAveragePointsPerPlayerAllWeeks flC2 1 ["QB"] ["BE"] "started"
      = Except.error
          "UnboundLocalError: local variable average_overall_team_data referenced before assignment"
    ∧ getAndWriteAveragePointsPerPlayer flC2 ["QB"] ["BE"] "started" = Except.ok [c2Row] := by
  constructor
  · simp [getAndWriteAveragePointsPerPlayerAllWeeks, avgAllWeeksLoop, avgAllWeeksGo,
      avgAllWeeksRows, collectAllWeeksVals, averagePointsPerPlayer, getTeamsData, teamIndex,
      listIndexOf, flC2, mkMatchup, teamA, teamB, qbPlayer, sortByIndexColumn,
      insertByIndexColumn, averagePointsTableForTeam, playerCountAndStats, matchesPosition,
      Player.pointsAt, List.lookup, List.filterMap_cons, List.range']
  · simp [getAndWriteAveragePointsPerPlayer, averagePointsPerPlayer, getTeamsData, teamIndex,
      listIndexOf, flC2, mkMatchup, teamA, teamB, qbPlayer, avgRows, collectAvgVals,
      averagePointsTableForTeam, playerCountAndStats, matchesPosition, Player.pointsAt,
      List.lookup, List.filterMap_cons, c2Row]
    norm_num [pythonRound2, roundHalfToEven, MetricRow.mk.injEq]
